import Mathlib

/-!
Shallow embedding of the BESS-Analytics core (battery dispatch simulator,
metrics calculator, tiered-tariff financial model from `src/js/simulation.js`,
and the daily aggregation routine of the DataMerger module), together with
proofs of the specification's testable properties.

Conventions of the embedding:
* JavaScript numbers are modelled as exact rationals (`ℚ`).  The literal
  `0.25` of the source (exact in binary floating point) is written `1/4`,
  `0.96` is `96/100`, and so on.
* A JavaScript property read that can yield `undefined`, and arithmetic on
  such a value (which yields `NaN`), are modelled with `Option ℚ`: `none`
  stands for `undefined`/`NaN` (or, for a division by zero, a non-finite
  value).  `jsAdd`, `jsMul`, `jsSub` propagate `none` exactly as JavaScript
  arithmetic propagates `NaN`, and `jsLe`/`jsLt` are `false` whenever either
  side is `none`, as JavaScript comparisons are on `NaN`/`undefined`.
-/

namespace BESS

/-- The `inverterMode` configuration value (`'asymmetric' | 'symmetric'`). -/
inductive InverterMode
  | asymmetric
  | symmetric
deriving DecidableEq

/-- The `currency` configuration value (`'HUF' | 'EUR'`). -/
inductive Currency
  | HUF
  | EUR
deriving DecidableEq

/-- One entry of `config.pricing` (`src/js/simulation.js` lines 17–30). -/
structure Pricing where
  tier1ImportPrice : ℚ
  tier2ImportPrice : ℚ
  exportPrice : ℚ
  tier1LimitKwh : ℚ
deriving DecidableEq

/-- The `config.pricing` object, holding one `Pricing` per currency. -/
structure PricingTable where
  HUF : Pricing
  EUR : Pricing
deriving DecidableEq

/-- The `BatterySimulation.config` object (`src/js/simulation.js` lines 7–31). -/
structure Config where
  capacityKwh : ℚ
  chargeEfficiency : ℚ
  dischargeEfficiency : ℚ
  maxChargeRateKw : ℚ
  maxDischargeRateKw : ℚ
  minSocPercent : ℚ
  maxSocPercent : ℚ
  inverterMode : InverterMode
  currency : Currency
  pricing : PricingTable
deriving DecidableEq

/-- The default configuration values of `src/js/simulation.js` lines 7–31. -/
def defaultConfig : Config :=
  { capacityKwh := 10
    chargeEfficiency := 96/100
    dischargeEfficiency := 92/100
    maxChargeRateKw := 5
    maxDischargeRateKw := 5
    minSocPercent := 10
    maxSocPercent := 90
    inverterMode := .asymmetric
    currency := .HUF
    pricing :=
      { HUF := { tier1ImportPrice := 36, tier2ImportPrice := 70,
                 exportPrice := 5, tier1LimitKwh := 2523 }
        EUR := { tier1ImportPrice := 9/100, tier2ImportPrice := 18/100,
                 exportPrice := 1/100, tier1LimitKwh := 2523 } } }

/-- One input interval record of the merged timeline: the fields of a
`mergedData` point that the simulation core reads (timestamps are opaque to
the simulator and are omitted). -/
structure DataPoint where
  productionKw : ℚ
  importKwh : ℚ
  exportKwh : ℚ
deriving DecidableEq

/-- Division as JavaScript performs it: a zero denominator yields a
non-finite value (`NaN` or `±Infinity`), modelled as `none`. -/
def jsDivQ (a b : ℚ) : Option ℚ :=
  if b = 0 then none else some (a / b)

/-- One simulated record, as pushed onto `simulatedData`
(`src/js/simulation.js` lines 132–141).  The spread `...point` copies the
input fields; `batterySocPercent` is `none` when `capacityKwh = 0` (a JS
non-finite value). -/
structure SimPoint where
  productionKw : ℚ
  importKwh : ℚ
  exportKwh : ℚ
  batterySocPercent : Option ℚ
  batterySocKwh : ℚ
  batteryChargeKw : ℚ
  batteryDischargeKw : ℚ
  batteryLossKw : ℚ
  gridImportWithBattery : ℚ
  gridExportWithBattery : ℚ
deriving DecidableEq

/-- The per-branch outcome of one loop iteration: new state of charge,
`batteryChargeKw`, `batteryDischargeKw`, `batteryLossKw`,
`gridImportWithBattery`, `gridExportWithBattery`. -/
structure StepOut where
  soc : ℚ
  chargeKw : ℚ
  dischargeKw : ℚ
  lossKw : ℚ
  gridImport : ℚ
  gridExport : ℚ
deriving DecidableEq

/-- Dispatch decision of one iteration of the `mergedData.forEach` loop in
`simulate` (`src/js/simulation.js` lines 46–129), before the record is
pushed.  Mirrors both inverter modes branch for branch. -/
def dispatch (cfg : Config) (socKwh : ℚ) (point : DataPoint) : StepOut :=
  let hold : StepOut :=
    { soc := socKwh, chargeKw := 0, dischargeKw := 0, lossKw := 0,
      gridImport := point.importKwh, gridExport := point.exportKwh }
  match cfg.inverterMode with
  | .asymmetric =>
    let netBalance := point.exportKwh - point.importKwh
    if netBalance > 0 then
      let chargeRequest := min netBalance (cfg.maxChargeRateKw * (1/4))
      let maxChargeKwh := cfg.maxSocPercent / 100 * cfg.capacityKwh - socKwh
      let actualCharge := min chargeRequest (max 0 maxChargeKwh)
      if actualCharge > 0 then
        let energyStored := actualCharge * cfg.chargeEfficiency
        let chargeLoss := actualCharge - energyStored
        { soc := socKwh + energyStored
          chargeKw := actualCharge / (1/4)
          dischargeKw := 0
          lossKw := chargeLoss / (1/4)
          gridImport := point.importKwh
          gridExport := point.exportKwh - actualCharge }
      else hold
    else if netBalance < 0 then
      let dischargeRequest := min |netBalance| (cfg.maxDischargeRateKw * (1/4))
      let availableDischargeKwh := socKwh - cfg.minSocPercent / 100 * cfg.capacityKwh
      let actualDischarge := min dischargeRequest (max 0 availableDischargeKwh)
      if actualDischarge > 0 then
        let energyDelivered := actualDischarge * cfg.dischargeEfficiency
        let dischargeLoss := actualDischarge - energyDelivered
        { soc := socKwh - actualDischarge
          chargeKw := 0
          dischargeKw := actualDischarge / (1/4)
          lossKw := dischargeLoss / (1/4)
          gridImport := point.importKwh - energyDelivered
          gridExport := point.exportKwh }
      else hold
    else hold
  | .symmetric =>
    if point.exportKwh > 0 ∧ point.importKwh = 0 then
      let chargeRequest := min point.exportKwh (cfg.maxChargeRateKw * (1/4))
      let maxChargeKwh := cfg.maxSocPercent / 100 * cfg.capacityKwh - socKwh
      let actualCharge := min chargeRequest (max 0 maxChargeKwh)
      if actualCharge > 0 then
        let energyStored := actualCharge * cfg.chargeEfficiency
        let chargeLoss := actualCharge - energyStored
        { soc := socKwh + energyStored
          chargeKw := actualCharge / (1/4)
          dischargeKw := 0
          lossKw := chargeLoss / (1/4)
          gridImport := point.importKwh
          gridExport := point.exportKwh - actualCharge }
      else hold
    else if point.importKwh > 0 ∧ point.exportKwh = 0 then
      let dischargeRequest := min point.importKwh (cfg.maxDischargeRateKw * (1/4))
      let availableDischargeKwh := socKwh - cfg.minSocPercent / 100 * cfg.capacityKwh
      let actualDischarge := min dischargeRequest (max 0 availableDischargeKwh)
      if actualDischarge > 0 then
        let energyDelivered := actualDischarge * cfg.dischargeEfficiency
        let dischargeLoss := actualDischarge - energyDelivered
        { soc := socKwh - actualDischarge
          chargeKw := 0
          dischargeKw := actualDischarge / (1/4)
          lossKw := dischargeLoss / (1/4)
          gridImport := point.importKwh - energyDelivered
          gridExport := point.exportKwh }
      else hold
    else hold

/-- One full loop iteration: dispatch, then push the simulated record
(`src/js/simulation.js` lines 46–142).  Returns the carried `socKwh` and the
pushed record. -/
def simStep (cfg : Config) (socKwh : ℚ) (point : DataPoint) : ℚ × SimPoint :=
  let s := dispatch cfg socKwh point
  (s.soc,
    { productionKw := point.productionKw
      importKwh := point.importKwh
      exportKwh := point.exportKwh
      batterySocPercent := (jsDivQ s.soc cfg.capacityKwh).map (· * 100)
      batterySocKwh := s.soc
      batteryChargeKw := s.chargeKw
      batteryDischargeKw := s.dischargeKw
      batteryLossKw := s.lossKw
      gridImportWithBattery := s.gridImport
      gridExportWithBattery := s.gridExport })

/-- The simulation loop over the timeline, carrying `socKwh`. -/
def simulateRecords (cfg : Config) : ℚ → List DataPoint → List SimPoint
  | _, [] => []
  | socKwh, point :: rest =>
    (simStep cfg socKwh point).2 :: simulateRecords cfg (simStep cfg socKwh point).1 rest

/-- The initial state of charge,
`this.config.capacityKwh * (this.config.minSocPercent / 100)`
(`src/js/simulation.js` line 39). -/
def initialSoc (cfg : Config) : ℚ :=
  cfg.capacityKwh * (cfg.minSocPercent / 100)

/-- The record sequence produced by `BatterySimulation.simulate`
(`src/js/simulation.js` lines 38–142). -/
def simulate (cfg : Config) (mergedData : List DataPoint) : List SimPoint :=
  simulateRecords cfg (initialSoc cfg) mergedData

/-- The metrics object returned by `calculateBaselineMetrics` and
`calculateSimulatedMetrics` (`src/js/simulation.js` lines 186–194 and
223–231). -/
structure Metrics where
  solarProduction : ℚ
  gridImport : ℚ
  gridExport : ℚ
  solarSelfConsumption : ℚ
  selfConsumptionRate : ℚ
  batterySelfConsumption : ℚ
  batteryLosses : ℚ
deriving DecidableEq

/-- The `calculateBaselineMetrics` function (`src/js/simulation.js`
lines 167–195): per-interval accumulation over the input data. -/
def calculateBaselineMetrics (data : List DataPoint) : Metrics :=
  let totalSolarProduction := (data.map (fun point => point.productionKw * (1/4))).sum
  let totalGridImport := (data.map (fun point => point.importKwh)).sum
  let totalGridExport := (data.map (fun point => point.exportKwh)).sum
  let totalSelfConsumption := totalSolarProduction - totalGridExport
  { solarProduction := totalSolarProduction
    gridImport := totalGridImport
    gridExport := totalGridExport
    solarSelfConsumption := totalSelfConsumption
    selfConsumptionRate :=
      if totalSolarProduction > 0 then totalSelfConsumption / totalSolarProduction * 100 else 0
    batterySelfConsumption := 0
    batteryLosses := 0 }

/-- The `calculateSimulatedMetrics` function (`src/js/simulation.js`
lines 200–232), reading the with-battery fields of the simulated records. -/
def calculateSimulatedMetrics (data : List SimPoint) (baselineMetrics : Metrics) : Metrics :=
  let totalSolarProduction := (data.map (fun point => point.productionKw * (1/4))).sum
  let totalGridImportWithBattery := (data.map (fun point => point.gridImportWithBattery)).sum
  let totalGridExportWithBattery := (data.map (fun point => point.gridExportWithBattery)).sum
  let totalBatteryLosses := (data.map (fun point => point.batteryLossKw * (1/4))).sum
  let solarSelfConsumption := totalSolarProduction - totalGridExportWithBattery
  { solarProduction := totalSolarProduction
    gridImport := totalGridImportWithBattery
    gridExport := totalGridExportWithBattery
    solarSelfConsumption := solarSelfConsumption
    selfConsumptionRate :=
      if totalSolarProduction > 0 then solarSelfConsumption / totalSolarProduction * 100 else 0
    batterySelfConsumption := solarSelfConsumption - baselineMetrics.solarSelfConsumption
    batteryLosses := totalBatteryLosses }

/-- The object returned by `calculateImprovements` (`src/js/simulation.js`
lines 242–253). -/
structure Improvements where
  gridImportReduction : ℚ
  gridImportReductionPercent : ℚ
  gridExportReduction : ℚ
  gridExportReductionPercent : ℚ
  selfConsumptionImprovement : ℚ
  selfConsumptionImprovementPercent : ℚ
deriving DecidableEq

/-- The `calculateImprovements` function (`src/js/simulation.js`
lines 237–254). -/
def calculateImprovements (before after : Metrics) : Improvements :=
  let gridImportReduction := before.gridImport - after.gridImport
  let gridExportReduction := before.gridExport - after.gridExport
  { gridImportReduction := gridImportReduction
    gridImportReductionPercent :=
      if before.gridImport > 0 then gridImportReduction / before.gridImport * 100 else 0
    gridExportReduction := gridExportReduction
    gridExportReductionPercent :=
      if before.gridExport > 0 then gridExportReduction / before.gridExport * 100 else 0
    selfConsumptionImprovement := after.solarSelfConsumption - before.solarSelfConsumption
    selfConsumptionImprovementPercent := after.selfConsumptionRate - before.selfConsumptionRate }

/-!
JavaScript-number arithmetic on `Option ℚ`: `none` is `undefined`/`NaN`.
-/

/-- JavaScript addition: any operand that is `undefined`/`NaN` yields `NaN`. -/
def jsAdd : Option ℚ → Option ℚ → Option ℚ
  | some a, some b => some (a + b)
  | _, _ => none

/-- JavaScript subtraction with `NaN` propagation. -/
def jsSub : Option ℚ → Option ℚ → Option ℚ
  | some a, some b => some (a - b)
  | _, _ => none

/-- JavaScript multiplication with `NaN` propagation (`0 * NaN` is `NaN`). -/
def jsMul : Option ℚ → Option ℚ → Option ℚ
  | some a, some b => some (a * b)
  | _, _ => none

/-- JavaScript division with `NaN` propagation; a zero denominator yields a
non-finite value, modelled as `none`. -/
def jsDiv : Option ℚ → Option ℚ → Option ℚ
  | some a, some b => if b = 0 then none else some (a / b)
  | _, _ => none

/-- JavaScript `x <= y`: `false` when either side is `NaN`/`undefined`. -/
def jsLe : Option ℚ → Option ℚ → Bool
  | some a, some b => a ≤ b
  | _, _ => false

/-- JavaScript `x < y`: `false` when either side is `NaN`/`undefined`. -/
def jsLt : Option ℚ → Option ℚ → Bool
  | some a, some b => a < b
  | _, _ => false

/-- JavaScript property read on a `Pricing` object: looking up a property
name that the object does not carry yields `undefined` (`none`).  The object
(`src/js/simulation.js` lines 18–23) carries exactly `tier1ImportPrice`,
`tier2ImportPrice`, `exportPrice` and `tier1LimitKwh`. -/
def Pricing.getField (p : Pricing) : String → Option ℚ
  | "tier1ImportPrice" => some p.tier1ImportPrice
  | "tier2ImportPrice" => some p.tier2ImportPrice
  | "exportPrice" => some p.exportPrice
  | "tier1LimitKwh" => some p.tier1LimitKwh
  | _ => none

/-- `this.config.pricing[this.config.currency]`
(`src/js/simulation.js` line 260). -/
def Config.prices (cfg : Config) : Pricing :=
  match cfg.currency with
  | .HUF => cfg.pricing.HUF
  | .EUR => cfg.pricing.EUR

/-- One iteration of the `calculateCost` loop body in
`calculateFinancialSavings` (`src/js/simulation.js` lines 271–298).  The
accumulator is `(totalCost, cumulativeImport)`; `cumulativeImport` stays a
plain number because it is built only from the input kWh values. -/
def costStep (tier1Limit tier1Price tier2Price exportPrice : Option ℚ)
    (acc : Option ℚ × ℚ) (interval : ℚ × ℚ) : Option ℚ × ℚ :=
  let totalCost := acc.1
  let cumulativeImport := acc.2
  let importKwh := interval.1
  let exportKwh := interval.2
  let importBeforeInterval := cumulativeImport
  let importAfterInterval := cumulativeImport + importKwh
  let intervalImportCost :=
    if jsLe (some importAfterInterval) tier1Limit then
      jsMul (some importKwh) tier1Price
    else if jsLe tier1Limit (some importBeforeInterval) then
      jsMul (some importKwh) tier2Price
    else
      let tier1Kwh := jsSub tier1Limit (some importBeforeInterval)
      let tier2Kwh := jsSub (some importKwh) tier1Kwh
      jsAdd (jsMul tier1Kwh tier1Price) (jsMul tier2Kwh tier2Price)
  let intervalExportRevenue := jsMul (some exportKwh) exportPrice
  (jsAdd totalCost (jsSub intervalImportCost intervalExportRevenue),
    cumulativeImport + importKwh)

/-- The inner `calculateCost` helper of `calculateFinancialSavings`
(`src/js/simulation.js` lines 267–301), over parallel per-interval series. -/
def calculateCost (tier1Limit tier1Price tier2Price exportPrice : Option ℚ)
    (gridImportPerInterval gridExportPerInterval : List ℚ) : Option ℚ :=
  ((gridImportPerInterval.zip gridExportPerInterval).foldl
    (costStep tier1Limit tier1Price tier2Price exportPrice) (some 0, 0)).1

/-- The object returned by `calculateFinancialSavings`
(`src/js/simulation.js` lines 317–323). -/
structure Financials where
  baselineCost : Option ℚ
  batteryCost : Option ℚ
  totalSavings : Option ℚ
  savingsPercent : Option ℚ
  currency : Currency
deriving DecidableEq

/-- The `calculateFinancialSavings` function (`src/js/simulation.js`
lines 259–324).  Note the source reads `prices.tier1PricePerKwh`,
`prices.tier2PricePerKwh` and `prices.exportPricePerKwh` — property names
the pricing object does not carry — so those three lookups are
`undefined`. -/
def calculateFinancialSavings (cfg : Config) (data : List SimPoint) : Financials :=
  let prices := cfg.prices
  let tier1Limit := prices.getField "tier1LimitKwh"
  let tier1Price := prices.getField "tier1PricePerKwh"
  let tier2Price := prices.getField "tier2PricePerKwh"
  let exportPrice := prices.getField "exportPricePerKwh"
  let baselineImports := data.map (fun point => point.importKwh)
  let baselineExports := data.map (fun point => point.exportKwh)
  let batteryImports := data.map (fun point => point.gridImportWithBattery)
  let batteryExports := data.map (fun point => point.gridExportWithBattery)
  let baselineCost := calculateCost tier1Limit tier1Price tier2Price exportPrice
    baselineImports baselineExports
  let batteryCost := calculateCost tier1Limit tier1Price tier2Price exportPrice
    batteryImports batteryExports
  let totalSavings := jsSub baselineCost batteryCost
  { baselineCost := baselineCost
    batteryCost := batteryCost
    totalSavings := totalSavings
    savingsPercent :=
      if jsLt (some 0) baselineCost then jsMul (jsDiv totalSavings baselineCost) (some 100)
      else some 0
    currency := cfg.currency }

/-- A `newConfig` argument of `setConfig`: each property is either present
or absent; the object spread `{ ...this.config, ...newConfig }` keeps the
old value for an absent property. -/
structure PartialConfig where
  capacityKwh : Option ℚ := none
  chargeEfficiency : Option ℚ := none
  dischargeEfficiency : Option ℚ := none
  maxChargeRateKw : Option ℚ := none
  maxDischargeRateKw : Option ℚ := none
  minSocPercent : Option ℚ := none
  maxSocPercent : Option ℚ := none
  inverterMode : Option InverterMode := none
  currency : Option Currency := none
  pricing : Option PricingTable := none
deriving DecidableEq

/-- The shallow merge `this.config = { ...this.config, ...newConfig }`
(`src/js/simulation.js` line 330). -/
def mergeConfig (cfg : Config) (newConfig : PartialConfig) : Config :=
  { capacityKwh := newConfig.capacityKwh.getD cfg.capacityKwh
    chargeEfficiency := newConfig.chargeEfficiency.getD cfg.chargeEfficiency
    dischargeEfficiency := newConfig.dischargeEfficiency.getD cfg.dischargeEfficiency
    maxChargeRateKw := newConfig.maxChargeRateKw.getD cfg.maxChargeRateKw
    maxDischargeRateKw := newConfig.maxDischargeRateKw.getD cfg.maxDischargeRateKw
    minSocPercent := newConfig.minSocPercent.getD cfg.minSocPercent
    maxSocPercent := newConfig.maxSocPercent.getD cfg.maxSocPercent
    inverterMode := newConfig.inverterMode.getD cfg.inverterMode
    currency := newConfig.currency.getD cfg.currency
    pricing := newConfig.pricing.getD cfg.pricing }

/-- The `setConfig` function (`src/js/simulation.js` lines 329–341): merge,
then validate only the two efficiency values, substituting the documented
defaults `0.96` and `0.92` when a value falls outside `(0, 1]`. -/
def setConfig (cfg : Config) (newConfig : PartialConfig) : Config :=
  let merged := mergeConfig cfg newConfig
  let merged :=
    if merged.chargeEfficiency > 1 ∨ merged.chargeEfficiency ≤ 0 then
      { merged with chargeEfficiency := 96/100 }
    else merged
  if merged.dischargeEfficiency > 1 ∨ merged.dischargeEfficiency ≤ 0 then
    { merged with dischargeEfficiency := 92/100 }
  else merged

/-!
The DataMerger aggregation routine (`aggregateDataToDaily`).  The calendar
day derived from `row.timestamp` is abstracted as an opaque bucket key of
type `κ` carried on the row (the claim quantifies over every distribution of
the input across calendar days), and the bucket timestamp
`new Date(dateKey + "T00:00:00").getTime()` as a function `keyMs : κ → Int`
of the key, used only for the final sort.
-/

/-- A row as consumed by `aggregateDataToDaily`: `key` is the `dateKey`
derived from the row's timestamp, and `get` is JavaScript property read on
the row (`none` for a property the row does not carry). -/
structure AggRow (κ : Type) where
  key : κ
  get : String → Option ℚ

/-- The `fields` argument `{ sum: [...], average: [...] }`. -/
structure FieldsSpec where
  sum : List String
  average : List String

/-- One value of the `dailyMap`: `count`, the `sums` accumulator object and
the `totals` accumulator object. -/
structure AggEntry where
  count : ℕ
  sums : String → Option ℚ
  totals : String → Option ℚ

/-- The freshly created map entry (`count: 0, sums: {}, totals: {}`). -/
def emptyEntry : AggEntry :=
  { count := 0, sums := fun _ => none, totals := fun _ => none }

/-- One iteration of the `fields.sum.forEach` (or `fields.average.forEach`)
accumulation: when the row carries the field, add it into the accumulator
object, first initialising a missing (or falsy) slot to `0`. -/
def updSlot (rowGet : String → Option ℚ) (acc : String → Option ℚ)
    (field : String) : String → Option ℚ :=
  match rowGet field with
  | none => acc
  | some v => fun f => if f = field then some ((acc field).getD 0 + v) else acc f

/-- The per-row update of a map entry (`entry.count++` plus both `forEach`
loops over `fields.sum` and `fields.average`). -/
def updEntry (fields : FieldsSpec) (row : AggRow κ) (e : AggEntry) : AggEntry :=
  { count := e.count + 1
    sums := fields.sum.foldl (updSlot row.get) e.sums
    totals := fields.average.foldl (updSlot row.get) e.totals }

/-- Processing one row against the `dailyMap`, modelled as an
insertion-ordered association list exactly as a JS `Map` iterates: a fresh
entry is appended for an unseen `dateKey`, an existing entry is updated in
place. -/
def insertRow [DecidableEq κ] (fields : FieldsSpec) :
    List (κ × AggEntry) → AggRow κ → List (κ × AggEntry)
  | [], row => [(row.key, updEntry fields row emptyEntry)]
  | (k, e) :: rest, row =>
    if row.key = k then (k, updEntry fields row e) :: rest
    else (k, e) :: insertRow fields rest row

/-- One record of the aggregated output: the bucket timestamp and the
property read on the result object (`none` for a field in neither list). -/
structure OutRow (κ : Type) where
  key : κ
  timestampMs : Int
  get : String → Option ℚ

/-- Building one output record from a map entry (`src/unnamed/part_001`
lines 89–109): summed fields are written first (`sums[field] || 0`), then
averaged fields overwrite (`count > 0 ? (totals[field] || 0) / count : 0`). -/
def mkOutRow (fields : FieldsSpec) (keyMs : κ → Int) (k : κ) (e : AggEntry) : OutRow κ :=
  { key := k
    timestampMs := keyMs k
    get := fun f =>
      if f ∈ fields.average then
        some (if e.count > 0 then (e.totals f).getD 0 / (e.count : ℚ) else 0)
      else if f ∈ fields.sum then some ((e.sums f).getD 0)
      else none }

/-- The `aggregateDataToDaily` function (`src/unnamed/part_001`
lines 44–111): group the rows by calendar-day key in first-appearance
order, accumulate, then emit one record per bucket sorted ascending by the
bucket timestamp (the comparator sort is modelled by insertion sort, a
permutation ordered the same way). -/
def aggregateDataToDaily [DecidableEq κ] (keyMs : κ → Int)
    (data : List (AggRow κ)) (fields : FieldsSpec) : List (OutRow κ) :=
  match data with
  | [] => []
  | _ =>
    let dailyMap := data.foldl (insertRow fields) []
    (dailyMap.map (fun ke => mkOutRow fields keyMs ke.1 ke.2)).insertionSort
      (fun a b => a.timestampMs ≤ b.timestampMs)

/-!
Concrete values used in counterexamples and witnesses.
-/

/-- The default configuration with a negative battery capacity (reachable,
since `setConfig` does not validate `capacityKwh`). -/
def negCapConfig : Config :=
  { defaultConfig with capacityKwh := -10 }

/-- The default configuration with zero battery capacity. -/
def zeroCapConfig : Config :=
  { defaultConfig with capacityKwh := 0 }

/-- Sum over a map's entries of one `sums` slot (read as the output does,
missing slot contributing `0`). -/
def sumsVal (f : String) (m : List (κ × AggEntry)) : ℚ :=
  (m.map (fun ke => ((ke.2.sums f).getD 0))).sum

/-- An aggregation row on day `1` carrying field `"a" = 1`. -/
def aggRowA : AggRow Int :=
  ⟨1, fun f => if f = "a" then some 1 else none⟩

/-- An aggregation row on day `1` carrying field `"a" = 3`. -/
def aggRowB : AggRow Int :=
  ⟨1, fun f => if f = "a" then some 3 else none⟩

/-- An aggregation row on day `2` carrying field `"a" = 5`. -/
def aggRowC : AggRow Int :=
  ⟨2, fun f => if f = "a" then some 5 else none⟩

/-- An aggregation row on day `2` carrying no fields at all. -/
def aggRowD : AggRow Int :=
  ⟨2, fun _ => none⟩

/-- The record the simulator produces for the single interval
`productionKw = 8, importKwh = 0, exportKwh = 2` under the default
configuration (the spec's concrete charging scenario). -/
def sampleChargeRecord : SimPoint :=
  { productionKw := 8, importKwh := 0, exportKwh := 2,
    batterySocPercent := some 22, batterySocKwh := 11/5, batteryChargeKw := 5,
    batteryDischargeKw := 0, batteryLossKw := 1/5, gridImportWithBattery := 0,
    gridExportWithBattery := 3/4 }

/-- The record the simulator produces for the single interval
`productionKw = 0, importKwh = 1, exportKwh = 0` under the default
configuration: the SoC window blocks the discharge, so everything passes
through. -/
def sampleHoldRecord : SimPoint :=
  { productionKw := 0, importKwh := 1, exportKwh := 0,
    batterySocPercent := some 10, batterySocKwh := 1, batteryChargeKw := 0,
    batteryDischargeKw := 0, batteryLossKw := 0, gridImportWithBattery := 1,
    gridExportWithBattery := 0 }

/-!
Theorems.
-/

/-- JavaScript `NaN` propagation: adding `NaN` on the right yields `NaN`. -/
lemma jsAdd_none_right (x : Option ℚ) : jsAdd x none = none := by cases x <;> rfl

/-- JavaScript `NaN` propagation for multiplication. -/
lemma jsMul_none_right (x : Option ℚ) : jsMul x none = none := by cases x <;> rfl

/-- JavaScript `NaN` propagation for subtraction. -/
lemma jsSub_none_left (x : Option ℚ) : jsSub none x = none := rfl

/-- JavaScript `NaN` propagation for addition. -/
lemma jsAdd_none_left (x : Option ℚ) : jsAdd none x = none := rfl

/-- Once the running total is `NaN`, one more cost-loop iteration keeps it
`NaN` while still advancing `cumulativeImport`. -/
lemma costStep_acc_none (t p1 p2 pe : Option ℚ) (c : ℚ) (iv : ℚ × ℚ) :
    costStep t p1 p2 pe (none, c) iv = (none, c + iv.1) := by
  simp [costStep, jsAdd]

/-- Once the running total is `NaN`, the whole remaining cost loop returns
`NaN`. -/
lemma foldl_costStep_none (t p1 p2 pe : Option ℚ) :
    ∀ (l : List (ℚ × ℚ)) (c : ℚ),
      (l.foldl (costStep t p1 p2 pe) (none, c)).1 = none := by
  intro l
  induction l with
  | nil => intro c; rfl
  | cons iv rest ih => intro c; rw [List.foldl_cons, costStep_acc_none]; exact ih _

/-- With both tier prices `undefined`, every branch of the cost-loop body
produces a `NaN` interval cost. -/
lemma costStep_prices_none (t pe : Option ℚ) (acc : Option ℚ × ℚ) (iv : ℚ × ℚ) :
    costStep t none none pe acc iv = (none, acc.2 + iv.1) := by
  simp only [costStep]
  split_ifs <;>
    simp [jsMul_none_right, jsSub_none_left, jsAdd_none_left, jsAdd_none_right]

/-- With both tier prices `undefined`, `calculateCost` over any non-empty
series returns `NaN`. -/
lemma calculateCost_prices_undefined (t pe : Option ℚ) (x y : ℚ) (imps exps : List ℚ) :
    calculateCost t none none pe (x :: imps) (y :: exps) = none := by
  simp only [calculateCost, List.zip_cons_cons, List.foldl_cons, costStep_prices_none]
  exact foldl_costStep_none t none none pe _ _

/-- Every record of `simulateRecords` is produced by `simStep` from some
carried state of charge and some input point of the list. -/
lemma simulateRecords_mem {cfg : Config} :
    ∀ {data : List DataPoint} {soc : ℚ} {r : SimPoint},
      r ∈ simulateRecords cfg soc data →
      ∃ s p, p ∈ data ∧ r = (simStep cfg s p).2 := by
  intro data
  induction data with
  | nil => intro soc r hr; simp [simulateRecords] at hr
  | cons p rest ih =>
    intro soc r hr
    simp only [simulateRecords, List.mem_cons] at hr
    rcases hr with h | h
    · exact ⟨soc, p, List.mem_cons_self _ _, h⟩
    · obtain ⟨s, q, hq, hrq⟩ := ih h
      exact ⟨s, q, List.mem_cons_of_mem _ hq, hrq⟩

/-- In every dispatch outcome at least one of the charge and discharge
rates is zero (each branch of the source sets one of them to `0`). -/
lemma dispatch_charge_or_discharge_eq_zero (cfg : Config) (soc : ℚ) (p : DataPoint) :
    (dispatch cfg soc p).chargeKw = 0 ∨ (dispatch cfg soc p).dischargeKw = 0 := by
  cases hmode : cfg.inverterMode <;>
    simp only [dispatch, hmode] <;> split_ifs <;> simp

/-- C1: for the default HUF pricing configuration and the single interval
`importKwh = 3000`, `exportKwh = 0`, the specified total cost is
`2523·36 + 477·70 = 124218`; the code instead produces `NaN` (modelled
`none`), because `calculateFinancialSavings` reads the prices under property
names (`tier1PricePerKwh`, `tier2PricePerKwh`, `exportPricePerKwh`) that the
pricing object does not carry.  The same tier-splitting loop evaluated with
the prices the configuration actually holds yields exactly `124218`. -/
theorem C1_tiered_cost_code_bug :
    (calculateFinancialSavings defaultConfig
        (simulate defaultConfig
          [{ productionKw := 0, importKwh := 3000, exportKwh := 0 }])).baselineCost = none ∧
    calculateCost (some 2523) (some 36) (some 70) (some 5) [3000] [0] = some 124218 ∧
    (2523 : ℚ) * 36 + 477 * 70 = 124218 := by
  refine ⟨?_, ?_, by norm_num⟩
  · show calculateCost (some 2523) none none none [3000] [0] = none
    exact calculateCost_prices_undefined _ _ _ _ _ _
  · norm_num [calculateCost, costStep, jsLe, jsMul, jsAdd, jsSub]

/-- C6: for every configuration (both inverter modes) and every input
sequence, no simulated record has both a non-zero `batteryChargeKw` and a
non-zero `batteryDischargeKw`. -/
theorem C6_no_simultaneous_charge_discharge (cfg : Config) (data : List DataPoint) :
    ∀ r ∈ simulate cfg data, r.batteryChargeKw = 0 ∨ r.batteryDischargeKw = 0 := by
  intro r hr
  obtain ⟨s, p, -, rfl⟩ := simulateRecords_mem hr
  simpa [simStep] using dispatch_charge_or_discharge_eq_zero cfg s p

/-- Witness for C6 at a concrete charging interval under the default
configuration. -/
theorem C6_witness :
    sampleChargeRecord.batteryChargeKw = 0 ∨ sampleChargeRecord.batteryDischargeKw = 0 :=
  C6_no_simultaneous_charge_discharge defaultConfig
    [{ productionKw := 8, importKwh := 0, exportKwh := 2 }] sampleChargeRecord
    (by norm_num [simulate, simulateRecords, simStep, dispatch, defaultConfig,
      sampleChargeRecord, jsDivQ, initialSoc, min_def, max_def])

/-- C2: in asymmetric inverter mode the per-interval dispatch is exactly the
specified one.  With `netBalance = exportKwh − importKwh`: a positive balance
charges `actualCharge = min(min(netBalance, maxChargeRateKw·0.25), max(0,
maxSocPercent/100·capacity − soc))` and, when positive, adds
`actualCharge·chargeEfficiency` to the SoC, records the loss
`actualCharge − actualCharge·chargeEfficiency`, reduces export by
`actualCharge` and leaves import unchanged; a negative balance discharges
symmetrically (SoC drops by `actualDischarge`, import drops by
`actualDischarge·dischargeEfficiency`, export unchanged); a zero balance
changes nothing.  Recorded kW rates are the interval energies divided by
`0.25`. -/
theorem C2_asymmetric_dispatch (cfg : Config) (soc : ℚ) (p : DataPoint)
    (hmode : cfg.inverterMode = .asymmetric) :
    ∀ netBalance, netBalance = p.exportKwh - p.importKwh →
      ((netBalance > 0 →
        ∀ actualCharge,
          actualCharge = min (min netBalance (cfg.maxChargeRateKw * (1/4)))
              (max 0 (cfg.maxSocPercent / 100 * cfg.capacityKwh - soc)) →
          actualCharge > 0 →
            (simStep cfg soc p).1 = soc + actualCharge * cfg.chargeEfficiency ∧
            (simStep cfg soc p).2.batteryLossKw * (1/4)
              = actualCharge - actualCharge * cfg.chargeEfficiency ∧
            (simStep cfg soc p).2.gridExportWithBattery = p.exportKwh - actualCharge ∧
            (simStep cfg soc p).2.gridImportWithBattery = p.importKwh ∧
            (simStep cfg soc p).2.batteryChargeKw * (1/4) = actualCharge ∧
            (simStep cfg soc p).2.batteryDischargeKw = 0) ∧
      (netBalance < 0 →
        ∀ actualDischarge,
          actualDischarge = min (min |netBalance| (cfg.maxDischargeRateKw * (1/4)))
              (max 0 (soc - cfg.minSocPercent / 100 * cfg.capacityKwh)) →
          actualDischarge > 0 →
            (simStep cfg soc p).1 = soc - actualDischarge ∧
            (simStep cfg soc p).2.batteryLossKw * (1/4)
              = actualDischarge - actualDischarge * cfg.dischargeEfficiency ∧
            (simStep cfg soc p).2.gridImportWithBattery
              = p.importKwh - actualDischarge * cfg.dischargeEfficiency ∧
            (simStep cfg soc p).2.gridExportWithBattery = p.exportKwh ∧
            (simStep cfg soc p).2.batteryDischargeKw * (1/4) = actualDischarge ∧
            (simStep cfg soc p).2.batteryChargeKw = 0) ∧
      (netBalance = 0 →
        (simStep cfg soc p).1 = soc ∧
        (simStep cfg soc p).2.gridImportWithBattery = p.importKwh ∧
        (simStep cfg soc p).2.gridExportWithBattery = p.exportKwh ∧
        (simStep cfg soc p).2.batteryChargeKw = 0 ∧
        (simStep cfg soc p).2.batteryDischargeKw = 0 ∧
        (simStep cfg soc p).2.batteryLossKw = 0)) := by
  intro netBalance hnb
  refine ⟨?_, ?_, ?_⟩
  · intro hpos actualCharge ha hapos
    subst hnb
    subst ha
    have hd : dispatch cfg soc p =
        { soc := soc + min (min (p.exportKwh - p.importKwh) (cfg.maxChargeRateKw * (1/4)))
              (max 0 (cfg.maxSocPercent / 100 * cfg.capacityKwh - soc)) * cfg.chargeEfficiency,
          chargeKw := min (min (p.exportKwh - p.importKwh) (cfg.maxChargeRateKw * (1/4)))
              (max 0 (cfg.maxSocPercent / 100 * cfg.capacityKwh - soc)) / (1/4),
          dischargeKw := 0,
          lossKw := (min (min (p.exportKwh - p.importKwh) (cfg.maxChargeRateKw * (1/4)))
              (max 0 (cfg.maxSocPercent / 100 * cfg.capacityKwh - soc))
            - min (min (p.exportKwh - p.importKwh) (cfg.maxChargeRateKw * (1/4)))
              (max 0 (cfg.maxSocPercent / 100 * cfg.capacityKwh - soc)) * cfg.chargeEfficiency)
              / (1/4),
          gridImport := p.importKwh,
          gridExport := p.exportKwh
            - min (min (p.exportKwh - p.importKwh) (cfg.maxChargeRateKw * (1/4)))
              (max 0 (cfg.maxSocPercent / 100 * cfg.capacityKwh - soc)) } := by
      simp only [dispatch, hmode]
      split_ifs <;> first | rfl | contradiction
    refine ⟨?_, ?_, ?_, ?_, ?_, ?_⟩ <;> simp [simStep, hd] <;> ring
  · intro hneg actualDischarge ha hapos
    subst hnb
    subst ha
    have hd : dispatch cfg soc p =
        { soc := soc - min (min |p.exportKwh - p.importKwh| (cfg.maxDischargeRateKw * (1/4)))
              (max 0 (soc - cfg.minSocPercent / 100 * cfg.capacityKwh)),
          chargeKw := 0,
          dischargeKw := min (min |p.exportKwh - p.importKwh| (cfg.maxDischargeRateKw * (1/4)))
              (max 0 (soc - cfg.minSocPercent / 100 * cfg.capacityKwh)) / (1/4),
          lossKw := (min (min |p.exportKwh - p.importKwh| (cfg.maxDischargeRateKw * (1/4)))
              (max 0 (soc - cfg.minSocPercent / 100 * cfg.capacityKwh))
            - min (min |p.exportKwh - p.importKwh| (cfg.maxDischargeRateKw * (1/4)))
              (max 0 (soc - cfg.minSocPercent / 100 * cfg.capacityKwh))
              * cfg.dischargeEfficiency) / (1/4),
          gridImport := p.importKwh
            - min (min |p.exportKwh - p.importKwh| (cfg.maxDischargeRateKw * (1/4)))
              (max 0 (soc - cfg.minSocPercent / 100 * cfg.capacityKwh))
              * cfg.dischargeEfficiency,
          gridExport := p.exportKwh } := by
      simp only [dispatch, hmode]
      rw [if_neg (lt_asymm hneg), if_pos hneg, if_pos hapos]
    refine ⟨?_, ?_, ?_, ?_, ?_, ?_⟩ <;> simp [simStep, hd] <;> ring
  · intro hzero
    subst hnb
    have hd : dispatch cfg soc p =
        { soc := soc, chargeKw := 0, dischargeKw := 0, lossKw := 0,
          gridImport := p.importKwh, gridExport := p.exportKwh } := by
      simp only [dispatch, hmode, hzero, lt_irrefl, if_false, lt_self_iff_false]
    exact ⟨by simp [simStep, hd], by simp [simStep, hd], by simp [simStep, hd],
      by simp [simStep, hd], by simp [simStep, hd], by simp [simStep, hd]⟩

/-- Witness for C2: the spec's concrete charging scenario under the default
configuration (SoC `1`, interval `importKwh = 0`, `exportKwh = 2`,
`actualCharge = 5/4`). -/
theorem C2_witness :
    (simStep defaultConfig 1 { productionKw := 8, importKwh := 0, exportKwh := 2 }).1
        = 1 + 5/4 * defaultConfig.chargeEfficiency ∧
    (simStep defaultConfig 1 { productionKw := 8, importKwh := 0, exportKwh := 2 }).2.batteryLossKw
        * (1/4) = 5/4 - 5/4 * defaultConfig.chargeEfficiency ∧
    (simStep defaultConfig 1
        { productionKw := 8, importKwh := 0, exportKwh := 2 }).2.gridExportWithBattery
      = 2 - 5/4 ∧
    (simStep defaultConfig 1
        { productionKw := 8, importKwh := 0, exportKwh := 2 }).2.gridImportWithBattery = 0 ∧
    (simStep defaultConfig 1
        { productionKw := 8, importKwh := 0, exportKwh := 2 }).2.batteryChargeKw * (1/4) = 5/4 ∧
    (simStep defaultConfig 1
        { productionKw := 8, importKwh := 0, exportKwh := 2 }).2.batteryDischargeKw = 0 :=
  ((C2_asymmetric_dispatch defaultConfig 1 { productionKw := 8, importKwh := 0, exportKwh := 2 }
      rfl) 2 (by norm_num)).1 (by norm_num) (5/4)
    (by norm_num [defaultConfig, min_def, max_def]) (by norm_num)

/-- A charge of `a ≤ max 0 (ub − soc)` at efficiency `η ≤ 1` cannot push the
state of charge past `ub`. -/
lemma charge_soc_le (ub soc a η : ℚ) (hη : η ≤ 1)
    (ha : a ≤ max 0 (ub - soc)) (hpos : 0 < a) : soc + a * η ≤ ub := by
  rcases le_or_lt (ub - soc) 0 with h | h
  · rw [max_eq_left h] at ha; linarith
  · rw [max_eq_right (le_of_lt h)] at ha; nlinarith

/-- A positive charge at positive efficiency cannot drop the state of charge
below a lower bound it already satisfies. -/
lemma charge_soc_lb (lb soc a η : ℚ) (hη : 0 < η) (hpos : 0 < a) (hlo : lb ≤ soc) :
    lb ≤ soc + a * η := by nlinarith

/-- A discharge of `a ≤ max 0 (soc − lb)` cannot push the state of charge
below `lb`. -/
lemma discharge_soc_lb (lb soc a : ℚ) (ha : a ≤ max 0 (soc - lb)) (hpos : 0 < a) :
    lb ≤ soc - a := by
  rcases le_or_lt (soc - lb) 0 with h | h
  · rw [max_eq_left h] at ha; linarith
  · rw [max_eq_right (le_of_lt h)] at ha; linarith

/-- A positive discharge cannot raise the state of charge above an upper
bound it already satisfies. -/
lemma discharge_soc_ub (ub soc a : ℚ) (hpos : 0 < a) (hhi : soc ≤ ub) : soc - a ≤ ub := by
  linarith

/-- One dispatch step keeps the state of charge inside the configured SoC
window, in both inverter modes, whenever the charge efficiency lies in
`(0, 1]`. -/
lemma dispatch_soc_bounds (cfg : Config) (soc : ℚ) (p : DataPoint)
    (hce : 0 < cfg.chargeEfficiency) (hce1 : cfg.chargeEfficiency ≤ 1)
    (hlo : cfg.minSocPercent / 100 * cfg.capacityKwh ≤ soc)
    (hhi : soc ≤ cfg.maxSocPercent / 100 * cfg.capacityKwh) :
    cfg.minSocPercent / 100 * cfg.capacityKwh ≤ (dispatch cfg soc p).soc ∧
    (dispatch cfg soc p).soc ≤ cfg.maxSocPercent / 100 * cfg.capacityKwh := by
  cases hmode : cfg.inverterMode <;> simp only [dispatch, hmode] <;> split_ifs
  all_goals try exact ⟨hlo, hhi⟩
  all_goals rename_i hpos
  all_goals
    first
      | exact ⟨charge_soc_lb _ _ _ _ hce hpos hlo,
          charge_soc_le _ _ _ _ hce1 (min_le_right _ _) hpos⟩
      | exact ⟨discharge_soc_lb _ _ _ (min_le_right _ _) hpos,
          discharge_soc_ub _ _ _ hpos hhi⟩

/-- The simulation loop keeps every recorded `batterySocKwh` inside the SoC
window whenever the carried state starts inside it. -/
lemma simulateRecords_soc_bounds (cfg : Config)
    (hce : 0 < cfg.chargeEfficiency) (hce1 : cfg.chargeEfficiency ≤ 1) :
    ∀ (data : List DataPoint) (soc : ℚ),
      cfg.minSocPercent / 100 * cfg.capacityKwh ≤ soc →
      soc ≤ cfg.maxSocPercent / 100 * cfg.capacityKwh →
      ∀ r ∈ simulateRecords cfg soc data,
        cfg.minSocPercent / 100 * cfg.capacityKwh ≤ r.batterySocKwh ∧
        r.batterySocKwh ≤ cfg.maxSocPercent / 100 * cfg.capacityKwh := by
  intro data
  induction data with
  | nil => intro soc _ _ r hr; simp [simulateRecords] at hr
  | cons p rest ih =>
    intro soc hlo hhi r hr
    have hb := dispatch_soc_bounds cfg soc p hce hce1 hlo hhi
    simp only [simulateRecords, List.mem_cons] at hr
    rcases hr with h | h
    · subst h; exact ⟨hb.1, hb.2⟩
    · exact ih (simStep cfg soc p).1 hb.1 hb.2 r h

/-- Counterexample to C3 as stated: `setConfig` never validates
`capacityKwh`, so a configuration with efficiencies in `(0, 1]` and
`minSocPercent ≤ maxSocPercent` but negative capacity is reachable; on it
the very first simulated record (here for an all-zero interval) carries
`batterySocKwh = −1`, which violates the claimed upper bound
`maxSocPercent/100·capacityKwh = −9`. -/
theorem C3_counterexample :
    (0 < negCapConfig.chargeEfficiency ∧ negCapConfig.chargeEfficiency ≤ 1) ∧
    (0 < negCapConfig.dischargeEfficiency ∧ negCapConfig.dischargeEfficiency ≤ 1) ∧
    negCapConfig.minSocPercent ≤ negCapConfig.maxSocPercent ∧
    (simulate negCapConfig [{ productionKw := 0, importKwh := 0, exportKwh := 0 }]).map
        SimPoint.batterySocKwh = [-1] ∧
    ¬ ((-1 : ℚ) ≤ negCapConfig.maxSocPercent / 100 * negCapConfig.capacityKwh) := by
  norm_num [negCapConfig, defaultConfig, simulate, simulateRecords, simStep, dispatch,
    initialSoc, jsDivQ]

/-- C3 (amended with the non-negative capacity the counterexample forces):
for every configuration with efficiencies in `(0, 1]`,
`minSocPercent ≤ maxSocPercent` and `capacityKwh ≥ 0`, every simulated
record satisfies `minSocPercent/100·capacityKwh ≤ batterySocKwh ≤
maxSocPercent/100·capacityKwh`, exactly, under the embedding's exact
rational arithmetic. -/
theorem C3_soc_bounds (cfg : Config) (data : List DataPoint)
    (hce : 0 < cfg.chargeEfficiency) (hce1 : cfg.chargeEfficiency ≤ 1)
    (hde : 0 < cfg.dischargeEfficiency) (hde1 : cfg.dischargeEfficiency ≤ 1)
    (hmm : cfg.minSocPercent ≤ cfg.maxSocPercent) (hcap : 0 ≤ cfg.capacityKwh) :
    ∀ r ∈ simulate cfg data,
      cfg.minSocPercent / 100 * cfg.capacityKwh ≤ r.batterySocKwh ∧
      r.batterySocKwh ≤ cfg.maxSocPercent / 100 * cfg.capacityKwh := by
  have h1 : cfg.minSocPercent / 100 * cfg.capacityKwh ≤ initialSoc cfg :=
    le_of_eq (by rw [initialSoc]; ring)
  have h2 : initialSoc cfg ≤ cfg.maxSocPercent / 100 * cfg.capacityKwh := by
    rw [initialSoc]
    nlinarith [mul_nonneg (sub_nonneg.mpr hmm) hcap]
  exact simulateRecords_soc_bounds cfg hce hce1 data (initialSoc cfg) h1 h2

/-- Witness for C3 at the default configuration and the spec's concrete
charging interval. -/
theorem C3_witness :
    defaultConfig.minSocPercent / 100 * defaultConfig.capacityKwh
        ≤ sampleChargeRecord.batterySocKwh ∧
    sampleChargeRecord.batterySocKwh
        ≤ defaultConfig.maxSocPercent / 100 * defaultConfig.capacityKwh :=
  C3_soc_bounds defaultConfig [{ productionKw := 8, importKwh := 0, exportKwh := 2 }]
    (by norm_num [defaultConfig]) (by norm_num [defaultConfig])
    (by norm_num [defaultConfig]) (by norm_num [defaultConfig])
    (by norm_num [defaultConfig]) (by norm_num [defaultConfig]) sampleChargeRecord
    (by norm_num [simulate, simulateRecords, simStep, dispatch, defaultConfig,
      sampleChargeRecord, jsDivQ, initialSoc, min_def, max_def])

/-- Counterexample to C4 as stated: `setConfig` accepts a write with
`capacityKwh = −5` as-is, although the documented range requires
`capacityKwh > 0` (the source validates only the two efficiencies). -/
theorem C4_counterexample :
    (setConfig defaultConfig { capacityKwh := some (-5) }).capacityKwh = -5 ∧
    ¬ (0 < (setConfig defaultConfig { capacityKwh := some (-5) }).capacityKwh) := by
  norm_num [setConfig, mergeConfig, defaultConfig]

/-- C4 (amended to what the code enforces): after any `setConfig` call the
stored `chargeEfficiency` and `dischargeEfficiency` lie in `(0, 1]`, while
every other field is stored exactly as the shallow merge produced it,
without validation. -/
theorem C4_only_efficiencies_validated (cfg : Config) (newConfig : PartialConfig) :
    (0 < (setConfig cfg newConfig).chargeEfficiency ∧
      (setConfig cfg newConfig).chargeEfficiency ≤ 1) ∧
    (0 < (setConfig cfg newConfig).dischargeEfficiency ∧
      (setConfig cfg newConfig).dischargeEfficiency ≤ 1) ∧
    (setConfig cfg newConfig).capacityKwh = (mergeConfig cfg newConfig).capacityKwh ∧
    (setConfig cfg newConfig).maxChargeRateKw = (mergeConfig cfg newConfig).maxChargeRateKw ∧
    (setConfig cfg newConfig).maxDischargeRateKw
      = (mergeConfig cfg newConfig).maxDischargeRateKw ∧
    (setConfig cfg newConfig).minSocPercent = (mergeConfig cfg newConfig).minSocPercent ∧
    (setConfig cfg newConfig).maxSocPercent = (mergeConfig cfg newConfig).maxSocPercent ∧
    (setConfig cfg newConfig).inverterMode = (mergeConfig cfg newConfig).inverterMode ∧
    (setConfig cfg newConfig).currency = (mergeConfig cfg newConfig).currency := by
  simp only [setConfig]
  split_ifs with h1 h2 h3 <;>
    refine ⟨⟨?_, ?_⟩, ⟨?_, ?_⟩, rfl, rfl, rfl, rfl, rfl, rfl, rfl⟩ <;>
    try norm_num
  all_goals push_neg at *
  all_goals tauto

/-- Summing a list of zeros gives zero. -/
lemma sum_map_zero {α : Type} (l : List α) : (l.map fun _ => (0:ℚ)).sum = 0 := by
  induction l with
  | nil => rfl
  | cons a t ih => simp [ih]

/-- With zero capacity (and the carried SoC at its fixed point `0`) or with
both rate limits zero, a dispatch step does nothing: SoC, import and export
pass through and all battery fields are zero. -/
lemma dispatch_neutral (cfg : Config) (soc : ℚ) (p : DataPoint)
    (h : (cfg.capacityKwh = 0 ∧ soc = 0) ∨
      (cfg.maxChargeRateKw = 0 ∧ cfg.maxDischargeRateKw = 0)) :
    dispatch cfg soc p =
      { soc := soc, chargeKw := 0, dischargeKw := 0, lossKw := 0,
        gridImport := p.importKwh, gridExport := p.exportKwh } := by
  rcases h with ⟨hcap, hsoc⟩ | ⟨hc, hd⟩
  · cases hmode : cfg.inverterMode <;> simp [dispatch, hmode, hcap, hsoc, lt_min_iff]
  · cases hmode : cfg.inverterMode <;> simp [dispatch, hmode, hc, hd, lt_min_iff]

/-- Under either zero-battery condition the whole simulation loop reduces to
a pointwise pass-through map with a constant SoC. -/
lemma simulateRecords_neutral (cfg : Config) :
    ∀ (data : List DataPoint) (soc : ℚ),
      ((cfg.capacityKwh = 0 ∧ soc = 0) ∨
        (cfg.maxChargeRateKw = 0 ∧ cfg.maxDischargeRateKw = 0)) →
      simulateRecords cfg soc data = data.map (fun p =>
        { productionKw := p.productionKw, importKwh := p.importKwh, exportKwh := p.exportKwh,
          batterySocPercent := (jsDivQ soc cfg.capacityKwh).map (· * 100),
          batterySocKwh := soc, batteryChargeKw := 0, batteryDischargeKw := 0,
          batteryLossKw := 0, gridImportWithBattery := p.importKwh,
          gridExportWithBattery := p.exportKwh }) := by
  intro data
  induction data with
  | nil => intro soc _; rfl
  | cons p rest ih =>
    intro soc h
    have hd := dispatch_neutral cfg soc p h
    simp only [simulateRecords, simStep, hd, List.map_cons]
    exact congrArg _ (ih soc h)

/-- C5: with `capacityKwh = 0`, or with both rate limits zero, the simulator
is neutral: every record keeps `gridImportWithBattery = importKwh` and
`gridExportWithBattery = exportKwh`, all battery charge/discharge/loss rates
are zero, and the after-metrics equal the before-metrics exactly. -/
theorem C5_zero_battery_neutrality (cfg : Config) (data : List DataPoint)
    (h : cfg.capacityKwh = 0 ∨ (cfg.maxChargeRateKw = 0 ∧ cfg.maxDischargeRateKw = 0)) :
    (simulate cfg data).map SimPoint.gridImportWithBattery
        = data.map DataPoint.importKwh ∧
    (simulate cfg data).map SimPoint.gridExportWithBattery
        = data.map DataPoint.exportKwh ∧
    (∀ r ∈ simulate cfg data,
      r.batteryChargeKw = 0 ∧ r.batteryDischargeKw = 0 ∧ r.batteryLossKw = 0) ∧
    calculateSimulatedMetrics (simulate cfg data) (calculateBaselineMetrics data)
      = calculateBaselineMetrics data := by
  have h0 : (cfg.capacityKwh = 0 ∧ initialSoc cfg = 0) ∨
      (cfg.maxChargeRateKw = 0 ∧ cfg.maxDischargeRateKw = 0) := by
    rcases h with hcap | hr
    · exact Or.inl ⟨hcap, by simp [initialSoc, hcap]⟩
    · exact Or.inr hr
  have hmap := simulateRecords_neutral cfg data (initialSoc cfg) h0
  rw [simulate] at *
  refine ⟨?_, ?_, ?_, ?_⟩
  · rw [hmap, List.map_map]; rfl
  · rw [hmap, List.map_map]; rfl
  · intro r hr
    rw [hmap] at hr
    obtain ⟨p, -, rfl⟩ := List.mem_map.mp hr
    exact ⟨rfl, rfl, rfl⟩
  · rw [hmap]
    simp only [calculateSimulatedMetrics, calculateBaselineMetrics, List.map_map,
      Function.comp_def]
    simp [sub_self, sum_map_zero]

/-- Witness for C5 under the default configuration with zero capacity on a
single charging-shaped interval. -/
theorem C5_witness :
    (simulate zeroCapConfig [{ productionKw := 8, importKwh := 0, exportKwh := 2 }]).map
        SimPoint.gridImportWithBattery
      = [{ productionKw := 8, importKwh := 0, exportKwh := 2 }].map DataPoint.importKwh ∧
    (simulate zeroCapConfig [{ productionKw := 8, importKwh := 0, exportKwh := 2 }]).map
        SimPoint.gridExportWithBattery
      = [{ productionKw := 8, importKwh := 0, exportKwh := 2 }].map DataPoint.exportKwh ∧
    calculateSimulatedMetrics
        (simulate zeroCapConfig [{ productionKw := 8, importKwh := 0, exportKwh := 2 }])
        (calculateBaselineMetrics [{ productionKw := 8, importKwh := 0, exportKwh := 2 }])
      = calculateBaselineMetrics [{ productionKw := 8, importKwh := 0, exportKwh := 2 }] := by
  have h := C5_zero_battery_neutrality zeroCapConfig
    [{ productionKw := 8, importKwh := 0, exportKwh := 2 }] (Or.inl rfl)
  exact ⟨h.1, h.2.1, h.2.2.2⟩

/-- C8: `setConfig` never fails on an out-of-range efficiency: a supplied
`chargeEfficiency` outside `(0, 1]` is replaced by the documented default
`0.96`, a `dischargeEfficiency` outside `(0, 1]` by `0.92`, and an
in-range efficiency is stored unchanged. -/
theorem C8_efficiency_substitution (cfg : Config) (newConfig : PartialConfig) :
    (∀ ce, newConfig.chargeEfficiency = some ce → (ce > 1 ∨ ce ≤ 0) →
        (setConfig cfg newConfig).chargeEfficiency = 96/100) ∧
    (∀ ce, newConfig.chargeEfficiency = some ce → 0 < ce → ce ≤ 1 →
        (setConfig cfg newConfig).chargeEfficiency = ce) ∧
    (∀ de, newConfig.dischargeEfficiency = some de → (de > 1 ∨ de ≤ 0) →
        (setConfig cfg newConfig).dischargeEfficiency = 92/100) ∧
    (∀ de, newConfig.dischargeEfficiency = some de → 0 < de → de ≤ 1 →
        (setConfig cfg newConfig).dischargeEfficiency = de) := by
  refine ⟨?_, ?_, ?_, ?_⟩
  · intro ce hce hbad
    simp only [setConfig, mergeConfig, hce, Option.getD_some]
    rw [if_pos hbad]
    split_ifs <;> rfl
  · intro ce hce h0 h1
    simp only [setConfig, mergeConfig, hce, Option.getD_some]
    rw [if_neg (not_or.mpr ⟨not_lt.mpr h1, not_le.mpr h0⟩)]
    split_ifs <;> rfl
  · intro de hde hbad
    simp only [setConfig, mergeConfig, hde, Option.getD_some]
    split_ifs <;> first | rfl | (rename_i hcond; exact absurd hbad hcond)
  · intro de hde h0 h1
    simp only [setConfig, mergeConfig, hde, Option.getD_some]
    split_ifs <;>
      first
        | rfl
        | (rename_i hcond; rcases hcond with hh | hh <;> linarith)

/-- Witness for C8: an over-range charge efficiency is replaced by `0.96`,
a negative discharge efficiency by `0.92`, and an in-range value is kept. -/
theorem C8_witness :
    (setConfig defaultConfig { chargeEfficiency := some 2 }).chargeEfficiency = 96/100 ∧
    (setConfig defaultConfig { dischargeEfficiency := some (-1) }).dischargeEfficiency
      = 92/100 ∧
    (setConfig defaultConfig { chargeEfficiency := some (1/2) }).chargeEfficiency = 1/2 :=
  ⟨(C8_efficiency_substitution defaultConfig { chargeEfficiency := some 2 }).1 2 rfl
      (Or.inl (by norm_num)),
   (C8_efficiency_substitution defaultConfig { dischargeEfficiency := some (-1) }).2.2.1
      (-1) rfl (Or.inr (by norm_num)),
   (C8_efficiency_substitution defaultConfig { chargeEfficiency := some (1/2) }).2.1
      (1/2) rfl (by norm_num) (by norm_num)⟩

/-- C9: every guarded ratio of the pipeline resolves to `0` when its
denominator is `0` — the self-consumption rates at zero production, the
import/export reduction percentages at zero baseline flow, the savings
percentage at zero baseline cost — and on an empty record sequence every
metric, improvement and cost is exactly `0` (with the costs `some 0`, not
`NaN`). -/
theorem C9_degenerate_divisions :
    (∀ data : List DataPoint, (calculateBaselineMetrics data).solarProduction = 0 →
      (calculateBaselineMetrics data).selfConsumptionRate = 0) ∧
    (∀ (data : List SimPoint) (base : Metrics),
      (calculateSimulatedMetrics data base).solarProduction = 0 →
      (calculateSimulatedMetrics data base).selfConsumptionRate = 0) ∧
    (∀ before after : Metrics, before.gridImport = 0 →
      (calculateImprovements before after).gridImportReductionPercent = 0) ∧
    (∀ before after : Metrics, before.gridExport = 0 →
      (calculateImprovements before after).gridExportReductionPercent = 0) ∧
    (∀ (cfg : Config) (data : List SimPoint),
      (calculateFinancialSavings cfg data).baselineCost = some 0 →
      (calculateFinancialSavings cfg data).savingsPercent = some 0) ∧
    (calculateBaselineMetrics [] =
      { solarProduction := 0, gridImport := 0, gridExport := 0, solarSelfConsumption := 0,
        selfConsumptionRate := 0, batterySelfConsumption := 0, batteryLosses := 0 }) ∧
    (∀ cfg : Config, simulate cfg [] = [] ∧
      calculateSimulatedMetrics [] (calculateBaselineMetrics []) =
        { solarProduction := 0, gridImport := 0, gridExport := 0, solarSelfConsumption := 0,
          selfConsumptionRate := 0, batterySelfConsumption := 0, batteryLosses := 0 } ∧
      calculateImprovements (calculateBaselineMetrics [])
          (calculateSimulatedMetrics [] (calculateBaselineMetrics [])) =
        { gridImportReduction := 0, gridImportReductionPercent := 0, gridExportReduction := 0,
          gridExportReductionPercent := 0, selfConsumptionImprovement := 0,
          selfConsumptionImprovementPercent := 0 } ∧
      calculateFinancialSavings cfg [] =
        { baselineCost := some 0, batteryCost := some 0, totalSavings := some 0,
          savingsPercent := some 0, currency := cfg.currency }) := by
  refine ⟨?_, ?_, ?_, ?_, ?_, ?_, ?_⟩
  · intro data h
    simp only [calculateBaselineMetrics] at h ⊢
    rw [h]
    norm_num
  · intro data base h
    simp only [calculateSimulatedMetrics] at h ⊢
    rw [h]
    norm_num
  · intro before after h
    simp only [calculateImprovements] at h ⊢
    rw [h]
    norm_num
  · intro before after h
    simp only [calculateImprovements] at h ⊢
    rw [h]
    norm_num
  · intro cfg data h
    simp only [calculateFinancialSavings] at h ⊢
    rw [h]
    simp [jsLt]
  · norm_num [calculateBaselineMetrics]
  · intro cfg
    refine ⟨rfl, ?_, ?_, ?_⟩
    · norm_num [calculateSimulatedMetrics, calculateBaselineMetrics]
    · norm_num [calculateImprovements, calculateSimulatedMetrics, calculateBaselineMetrics]
    · simp [calculateFinancialSavings, calculateCost, jsSub, jsLt]

/-- Witness for C9: zero production, empty baselines and zero baseline cost
at concrete inputs. -/
theorem C9_witness :
    (calculateBaselineMetrics
        [{ productionKw := 0, importKwh := 1, exportKwh := 0 }]).selfConsumptionRate = 0 ∧
    (calculateImprovements (calculateBaselineMetrics [])
        (calculateBaselineMetrics [])).gridImportReductionPercent = 0 ∧
    (calculateFinancialSavings defaultConfig []).savingsPercent = some 0 :=
  ⟨C9_degenerate_divisions.1 [{ productionKw := 0, importKwh := 1, exportKwh := 0 }]
      (by norm_num [calculateBaselineMetrics]),
   C9_degenerate_divisions.2.2.1 (calculateBaselineMetrics [])
      (calculateBaselineMetrics []) (by norm_num [calculateBaselineMetrics]),
   C9_degenerate_divisions.2.2.2.2.1 defaultConfig [] rfl⟩

/-- Chained lower bound for the two nested `Math.min` calls of a dispatch
branch. -/
lemma min_min_le_left (A B C : ℚ) : min (min A B) C ≤ A :=
  le_trans (min_le_left _ _) (min_le_left _ _)

/-- One dispatch step never increases a grid flow and never drives one
negative, given a discharge efficiency in `(0, 1]` and non-negative input
flows. -/
lemma dispatch_flow_bounds (cfg : Config) (soc : ℚ) (p : DataPoint)
    (hde : 0 < cfg.dischargeEfficiency) (hde1 : cfg.dischargeEfficiency ≤ 1)
    (himp : 0 ≤ p.importKwh) (hexp : 0 ≤ p.exportKwh) :
    0 ≤ (dispatch cfg soc p).gridImport ∧ (dispatch cfg soc p).gridImport ≤ p.importKwh ∧
    0 ≤ (dispatch cfg soc p).gridExport ∧ (dispatch cfg soc p).gridExport ≤ p.exportKwh := by
  cases hmode : cfg.inverterMode <;> simp only [dispatch, hmode] <;> split_ifs <;>
    refine ⟨?_, ?_, ?_, ?_⟩
  all_goals try exact himp
  all_goals try exact hexp
  all_goals try exact le_refl _
  all_goals rename_i hcond hpos
  all_goals
    first
      | linarith [hpos]
      | linarith [mul_pos hpos hde]
      | linarith [min_min_le_left (p.exportKwh - p.importKwh) (cfg.maxChargeRateKw * (1/4))
          (max 0 (cfg.maxSocPercent / 100 * cfg.capacityKwh - soc)), himp]
      | linarith [min_min_le_left p.exportKwh (cfg.maxChargeRateKw * (1/4))
          (max 0 (cfg.maxSocPercent / 100 * cfg.capacityKwh - soc))]
      | nlinarith [min_min_le_left |p.exportKwh - p.importKwh| (cfg.maxDischargeRateKw * (1/4))
          (max 0 (soc - cfg.minSocPercent / 100 * cfg.capacityKwh)), abs_of_neg hcond,
          hexp, hde1, hpos]
      | nlinarith [min_min_le_left p.importKwh (cfg.maxDischargeRateKw * (1/4))
          (max 0 (soc - cfg.minSocPercent / 100 * cfg.capacityKwh)), hde1, hpos]

/-- The simulation loop keeps every record's with-battery flows inside
`[0, importKwh]` and `[0, exportKwh]`. -/
lemma simulateRecords_flow_bounds (cfg : Config)
    (hde : 0 < cfg.dischargeEfficiency) (hde1 : cfg.dischargeEfficiency ≤ 1) :
    ∀ (data : List DataPoint) (soc : ℚ),
      (∀ p ∈ data, 0 ≤ p.importKwh ∧ 0 ≤ p.exportKwh) →
      ∀ r ∈ simulateRecords cfg soc data,
        0 ≤ r.gridImportWithBattery ∧ r.gridImportWithBattery ≤ r.importKwh ∧
        0 ≤ r.gridExportWithBattery ∧ r.gridExportWithBattery ≤ r.exportKwh := by
  intro data
  induction data with
  | nil => intro soc _ r hr; simp [simulateRecords] at hr
  | cons p rest ih =>
    intro soc hnn r hr
    simp only [simulateRecords, List.mem_cons] at hr
    rcases hr with h | h
    · subst h
      have hp := hnn p (List.mem_cons_self _ _)
      exact dispatch_flow_bounds cfg soc p hde hde1 hp.1 hp.2
    · exact ih (simStep cfg soc p).1 (fun q hq => hnn q (List.mem_cons_of_mem _ hq)) r h

/-- C10: for every configuration with efficiencies in `(0, 1]` and every
input whose records have non-negative flows, every simulated record (either
inverter mode) satisfies `0 ≤ gridImportWithBattery ≤ importKwh` and
`0 ≤ gridExportWithBattery ≤ exportKwh`: the battery never increases a grid
flow and never drives one negative. -/
theorem C10_flow_bounds (cfg : Config) (data : List DataPoint)
    (hce : 0 < cfg.chargeEfficiency) (hce1 : cfg.chargeEfficiency ≤ 1)
    (hde : 0 < cfg.dischargeEfficiency) (hde1 : cfg.dischargeEfficiency ≤ 1)
    (hnn : ∀ p ∈ data, 0 ≤ p.importKwh ∧ 0 ≤ p.exportKwh) :
    ∀ r ∈ simulate cfg data,
      0 ≤ r.gridImportWithBattery ∧ r.gridImportWithBattery ≤ r.importKwh ∧
      0 ≤ r.gridExportWithBattery ∧ r.gridExportWithBattery ≤ r.exportKwh :=
  simulateRecords_flow_bounds cfg hde hde1 data (initialSoc cfg) hnn

/-- Witness for C10 at the default configuration on a pure-deficit interval
(the initial SoC window blocks the discharge, so the flows pass through). -/
theorem C10_witness :
    0 ≤ sampleHoldRecord.gridImportWithBattery ∧
    sampleHoldRecord.gridImportWithBattery ≤ sampleHoldRecord.importKwh ∧
    0 ≤ sampleHoldRecord.gridExportWithBattery ∧
    sampleHoldRecord.gridExportWithBattery ≤ sampleHoldRecord.exportKwh :=
  C10_flow_bounds defaultConfig [{ productionKw := 0, importKwh := 1, exportKwh := 0 }]
    (by norm_num [defaultConfig]) (by norm_num [defaultConfig])
    (by norm_num [defaultConfig]) (by norm_num [defaultConfig])
    (by intro p hp; simp only [List.mem_singleton] at hp; subst hp; norm_num)
    sampleHoldRecord
    (by norm_num [simulate, simulateRecords, simStep, dispatch, defaultConfig, jsDivQ,
      initialSoc, min_def, max_def, sampleHoldRecord])

/-- Folding the per-row slot update over a field list that does not contain
`f` leaves slot `f` unchanged. -/
lemma foldl_updSlot_not_mem (g : String → Option ℚ) (f : String) :
    ∀ (l : List String) (acc : String → Option ℚ), f ∉ l →
      (l.foldl (updSlot g) acc) f = acc f := by
  intro l
  induction l with
  | nil => intro acc _; rfl
  | cons a t ih =>
    intro acc hf
    rw [List.foldl_cons, ih _ (fun h => hf (List.mem_cons_of_mem _ h))]
    have hfa : f ≠ a := fun h => hf (h ▸ List.mem_cons_self _ _)
    cases hga : g a with
    | none => simp [updSlot, hga]
    | some v => simp [updSlot, hga, hfa]

/-- Folding the per-row slot update over a field list in which `f` occurs
exactly once adds the row's value for `f` (absent contributing `0`) into
slot `f`. -/
lemma foldl_updSlot_count_one (g : String → Option ℚ) (f : String) :
    ∀ (l : List String) (acc : String → Option ℚ), l.count f = 1 →
      ((l.foldl (updSlot g) acc) f).getD 0 = (acc f).getD 0 + (g f).getD 0 := by
  intro l
  induction l with
  | nil => intro acc h; simp at h
  | cons a t ih =>
    intro acc hcount
    rw [List.foldl_cons]
    by_cases hfa : a = f
    · subst hfa
      have ht : t.count a = 0 := by
        rw [List.count_cons_self] at hcount
        omega
      have hnot : a ∉ t := by
        intro hmem
        have := List.count_eq_zero.mp ht
        exact this hmem
      rw [foldl_updSlot_not_mem g a t _ hnot]
      cases hga : g a with
      | none => simp [updSlot, hga]
      | some v => simp [updSlot, hga]
    · have hfa' : f ≠ a := fun h => hfa h.symm
      have ht : t.count f = 1 := by
        rw [List.count_cons] at hcount
        simpa [hfa] using hcount
      have hstep : (updSlot g acc a) f = acc f := by
        cases hga : g a with
        | none => simp [updSlot, hga]
        | some v => simp [updSlot, hga, hfa']
      rw [ih (updSlot g acc a) ht, hstep]

/-- Unfolding `sumsVal` over a cons cell. -/
lemma sumsVal_cons (f : String) (k : κ) (e : AggEntry) (m : List (κ × AggEntry)) :
    sumsVal f ((k, e) :: m) = (e.sums f).getD 0 + sumsVal f m := by
  simp [sumsVal]

/-- Processing one row adds its value for a once-listed sum field into the
map's total for that field, whichever bucket the row lands in. -/
lemma sumsVal_insertRow {κ : Type} [DecidableEq κ] (fields : FieldsSpec) (f : String)
    (hcount : fields.sum.count f = 1) (row : AggRow κ) :
    ∀ m : List (κ × AggEntry),
      sumsVal f (insertRow fields m row) = sumsVal f m + (row.get f).getD 0 := by
  intro m
  induction m with
  | nil =>
    show sumsVal f [(row.key, updEntry fields row emptyEntry)] = sumsVal f [] + _
    rw [sumsVal_cons]
    simp only [sumsVal, List.map_nil, List.sum_nil, updEntry]
    rw [foldl_updSlot_count_one row.get f fields.sum _ hcount]
    simp [emptyEntry]
  | cons ke rest ih =>
    rcases ke with ⟨k, e⟩
    by_cases hk : row.key = k
    · simp only [insertRow, if_pos hk]
      rw [sumsVal_cons, sumsVal_cons]
      simp only [updEntry]
      rw [foldl_updSlot_count_one row.get f fields.sum e.sums hcount]
      ring
    · simp only [insertRow, if_neg hk]
      rw [sumsVal_cons, sumsVal_cons, ih]
      ring

/-- Folding the whole input into the daily map accumulates, for a
once-listed sum field, exactly the sum of the rows' values. -/
lemma sumsVal_foldl {κ : Type} [DecidableEq κ] (fields : FieldsSpec) (f : String)
    (hcount : fields.sum.count f = 1) :
    ∀ (data : List (AggRow κ)) (m : List (κ × AggEntry)),
      sumsVal f (data.foldl (insertRow fields) m)
        = sumsVal f m + (data.map (fun r => (r.get f).getD 0)).sum := by
  intro data
  induction data with
  | nil => intro m; simp
  | cons row rest ih =>
    intro m
    rw [List.foldl_cons, ih, sumsVal_insertRow fields f hcount row m]
    simp only [List.map_cons, List.sum_cons]
    ring

/-- Reading a once-listed sum field (not averaged) off the emitted bucket
records gives the map's accumulated totals. -/
lemma map_mkOutRow_sum {κ : Type} (fields : FieldsSpec) (keyMs : κ → Int) (f : String)
    (hf : f ∈ fields.sum) (havg : f ∉ fields.average) :
    ∀ m : List (κ × AggEntry),
      ((m.map (fun ke => mkOutRow fields keyMs ke.1 ke.2)).map
        (fun r => (r.get f).getD 0)).sum = sumsVal f m := by
  intro m
  induction m with
  | nil => rfl
  | cons ke rest ih =>
    rcases ke with ⟨k, e⟩
    simp only [List.map_cons, List.sum_cons, ih, sumsVal_cons]
    congr 1
    simp [mkOutRow, hf, havg]

/-- Counterexample to C7 as stated: when a field is named in `fields.sum`
and also in `fields.average`, the averaged value overwrites the summed one
on the output record, so the aggregated sum (here the average `2` of two
same-day rows holding `1` and `3`) differs from the input sum `4`. -/
theorem C7_counterexample :
    "a" ∈ (FieldsSpec.mk ["a"] ["a"]).sum ∧
    ((aggregateDataToDaily (fun k => k) [aggRowA, aggRowB]
        (FieldsSpec.mk ["a"] ["a"])).map (fun r => (r.get "a").getD 0)).sum = 2 ∧
    (([aggRowA, aggRowB]).map (fun r => (r.get "a").getD 0)).sum = 4 := by
  refine ⟨by simp, ?_, by norm_num [aggRowA, aggRowB]⟩
  norm_num [aggregateDataToDaily, insertRow, updEntry, updSlot, emptyEntry, mkOutRow,
    aggRowA, aggRowB, List.insertionSort, List.orderedInsert]

/-- C7 (amended to fields listed once for summing and not also averaged):
for every input sequence, every bucket-key assignment and every field that
occurs exactly once in `fields.sum` and not at all in `fields.average`, the
sum of that field over the daily-aggregated output equals its sum over the
input records, a record without the field contributing `0`. -/
theorem C7_sum_roundtrip {κ : Type} [DecidableEq κ] (keyMs : κ → Int)
    (data : List (AggRow κ)) (fields : FieldsSpec) (f : String)
    (hcount : fields.sum.count f = 1) (havg : f ∉ fields.average) :
    ((aggregateDataToDaily keyMs data fields).map (fun r => (r.get f).getD 0)).sum
      = (data.map (fun r => (r.get f).getD 0)).sum := by
  have hf : f ∈ fields.sum := by
    by_contra hnot
    rw [List.count_eq_zero.mpr hnot] at hcount
    exact absurd hcount (by omega)
  cases data with
  | nil => rfl
  | cons r0 rest =>
    have hagg : aggregateDataToDaily keyMs (r0 :: rest) fields
        = (((r0 :: rest).foldl (insertRow fields) []).map
            (fun ke => mkOutRow fields keyMs ke.1 ke.2)).insertionSort
          (fun a b => a.timestampMs ≤ b.timestampMs) := rfl
    rw [hagg]
    rw [List.Perm.sum_eq (List.Perm.map _ (List.perm_insertionSort _ _))]
    rw [map_mkOutRow_sum fields keyMs f hf havg]
    rw [sumsVal_foldl fields f hcount (r0 :: rest) []]
    simp [sumsVal]

/-- Witness for C7: four rows across two days, field `"a"` summed. -/
theorem C7_witness :
    (["a"] : List String).count "a" = 1 ∧ ("a" ∉ ([] : List String)) ∧
    ((aggregateDataToDaily (fun k => k) [aggRowA, aggRowC, aggRowB, aggRowD]
        (FieldsSpec.mk ["a"] [])).map (fun r => (r.get "a").getD 0)).sum
      = (([aggRowA, aggRowC, aggRowB, aggRowD]).map (fun r => (r.get "a").getD 0)).sum :=
  ⟨by simp, by simp,
   C7_sum_roundtrip (fun k => k) [aggRowA, aggRowC, aggRowB, aggRowD]
     (FieldsSpec.mk ["a"] []) "a" (by simp) (by simp)⟩

end BESS
